import Mathlib

/-!
Verification of the `tool-get-weather` serverless function (`app.go`).

The Go handler receives LLM function-calling arguments (city, latitude,
longitude), issues a single HTTP GET to the OpenWeatherMap API, and writes
the resulting text back to the host.  We embed the handler shallowly:

* Go `float64` coordinate values are modelled as exact rationals (`Rat`);
  Go's `%f` formatting verb (fixed point, default precision 6, rounding to
  nearest with ties to even as in `strconv`'s fixed-precision rounding) is
  modelled by `goFormatF6`.
* `os.Getenv` is modelled by an environment map `String → Option String`
  where an unset variable reads as the empty string.
* The network is an oracle `String → GetOutcome` giving, per URL, the
  outcome of `http.Get` (transport error, or a response whose body read by
  `io.ReadAll` either fails or yields the body bytes).
* All observable side effects (the outbound GET, `fmt.Println` of errors,
  `resp.Body.Close()`, `ctx.WriteLLMResult`, `slog.Info`) are recorded in
  an explicit effect trace, in program order.
-/

set_option maxRecDepth 10000

namespace GetWeather

/-- One Go fixed-width digit group: exactly `w` decimal digits of `n`
(most significant first), zero padded, as `fmt` pads the fractional part
of `%f` to the requested precision. -/
def fixedDigits : Nat → Nat → List Char
  | 0, _ => []
  | w + 1, n => fixedDigits w (n / 10) ++ [Nat.digitChar (n % 10)]

/-- Decimal digits of `n`, most significant first, no leading zeros
(`"0"` for zero); fuel-driven so that it is structurally recursive. -/
def natDigitsAux : Nat → Nat → List Char
  | 0, _ => []
  | fuel + 1, n =>
    if n < 10 then [Nat.digitChar n]
    else natDigitsAux fuel (n / 10) ++ [Nat.digitChar (n % 10)]

/-- Decimal digits of a natural number, as printed by Go's integer
formatting. -/
def natDigits (n : Nat) : List Char := natDigitsAux (n + 1) n

/-- Round the fraction `num / den` (`den ≠ 0`) to the nearest natural
number, ties to even (the rounding `strconv` applies when formatting to a
fixed number of decimals). -/
def roundNearestEven (num den : Nat) : Nat :=
  let n := num / den
  let r := num % den
  if 2 * r < den then n
  else if den < 2 * r then n + 1
  else if n % 2 = 0 then n else n + 1

/-- Go's `%f` verb on a `float64` value: fixed-point notation, exactly six
digits after the decimal point, magnitude rounded to the nearest multiple
of `10 ^ (-6)` (the scaled magnitude `|q| * 10 ^ 6` is the exact fraction
`q.num.natAbs * 10 ^ 6 / q.den`). -/
def goFormatF6 (q : Rat) : String :=
  let m := roundNearestEven (q.num.natAbs * 1000000) q.den
  (if q.num < 0 then "-" else "")
    ++ String.mk (natDigits (m / 1000000))
    ++ "." ++ String.mk (fixedDigits 6 (m % 1000000))

/-- An argument consumed by a `fmt.Sprintf` verb: `%f` takes a float
(here a rational), `%s` takes a string. -/
inductive GoArg where
  | f (x : Rat)
  | s (v : String)

/-- `fmt.Sprintf`, restricted to the `%f` and `%s` verbs (the only ones the
program uses): scan the format, substituting each verb with the rendering
of the next argument. -/
def sprintf : List Char → List GoArg → String
  | [], _ => ""
  | '%' :: 'f' :: rest, GoArg.f x :: args => goFormatF6 x ++ sprintf rest args
  | '%' :: 's' :: rest, GoArg.s v :: args => v ++ sprintf rest args
  | c :: rest, args => String.singleton c ++ sprintf rest args

/-- `LLMArguments` (app.go): the deserialized function-calling arguments. -/
structure LLMArguments where
  city : String
  latitude : Rat
  longitude : Rat
  deriving DecidableEq, Repr

/-- Outcome of `io.ReadAll(resp.Body)`: an error, or the body bytes. -/
inductive ReadOutcome where
  | readErr (msg : String)
  | readOk (body : String)
  deriving DecidableEq, Repr

/-- An HTTP response as the program observes it: the status code and what
reading the body yields. -/
structure Response where
  statusCode : Nat
  bodyRead : ReadOutcome
  deriving DecidableEq, Repr

/-- Outcome of `http.Get(url)`: a transport error, or a response. -/
inductive GetOutcome where
  | getErr (msg : String)
  | getOk (resp : Response)
  deriving DecidableEq, Repr

/-- The ambient world of one invocation: the process environment
(`os.Getenv`; `none` = variable unset, which `Getenv` reads as `""`) and
the network, as a map from request URL to the outcome of `http.Get`. -/
structure World where
  env : String → Option String
  net : String → GetOutcome

/-- `os.Getenv`: the variable's value, or the empty string when unset. -/
def getenv (w : World) (key : String) : String := (w.env key).getD ""

/-- The observable side effects of one invocation, in program order. -/
inductive Effect where
  | httpGet (url : String)
  | printlnErr (msg : String)
  | closeBody
  | writeLLMResult (result : String)
  | slogInfo (msg city result : String)
  deriving DecidableEq, Repr

/-- The `apiURL` format-string constant of `requestOpenWeatherMapAPI`. -/
def apiURL : String :=
  "https://api.openweathermap.org/data/2.5/weather?lat=%f&lon=%f&appid=%s&units=metric"

/-- The fixed fallback string returned on the two error paths. -/
def fallbackMessage : String := "can not get the weather information at the moment"

/-- `requestOpenWeatherMapAPI` (app.go, lines 59-78): build the request URL
from the coordinates and the call-time API key, perform one `http.Get`, and
return the body as a string; on a transport error or a body-read error,
print the error and return the fixed fallback string.  Returns the result
string together with the trace of side effects. -/
def requestOpenWeatherMapAPI (w : World) (lat lon : Rat) : String × List Effect :=
  let apiKey := getenv w "OPENWEATHERMAP_API_KEY"
  let url := sprintf apiURL.data [GoArg.f lat, GoArg.f lon, GoArg.s apiKey]
  match w.net url with
  | GetOutcome.getErr e =>
    (fallbackMessage, [Effect.httpGet url, Effect.printlnErr e])
  | GetOutcome.getOk resp =>
    match resp.bodyRead with
    | ReadOutcome.readErr e =>
      (fallbackMessage, [Effect.httpGet url, Effect.printlnErr e, Effect.closeBody])
    | ReadOutcome.readOk body =>
      (body, [Effect.httpGet url, Effect.closeBody])

/-- The URL `requestOpenWeatherMapAPI` requests, as a function of the
environment and the coordinates. -/
def buildURL (env : String → Option String) (lat lon : Rat) : String :=
  sprintf apiURL.data
    [GoArg.f lat, GoArg.f lon, GoArg.s ((env "OPENWEATHERMAP_API_KEY").getD "")]

/-- `Handler` (app.go, lines 47-57): read the arguments, call
`requestOpenWeatherMapAPI`, write the result back to the host, and emit one
structured `slog.Info` line recording the city and the result.  Returns the
full effect trace of the invocation. -/
def Handler (w : World) (p : LLMArguments) : List Effect :=
  let result := requestOpenWeatherMapAPI w p.latitude p.longitude
  result.2 ++ [Effect.writeLLMResult result.1,
    Effect.slogInfo "get-weather" p.city result.1]

/-- Is an effect an outbound `http.Get`? -/
def isHttpGet : Effect → Bool
  | Effect.httpGet _ => true
  | _ => false

/-- Is an effect a `ctx.WriteLLMResult` call? -/
def isResultWrite : Effect → Bool
  | Effect.writeLLMResult _ => true
  | _ => false

/-- A test environment holding a concrete API key. -/
def envWithKey : String → Option String
  | "OPENWEATHERMAP_API_KEY" => some "TESTKEY"
  | _ => none

/-- A test world whose provider answers every request with status 200 and a
fixed body. -/
def okWorld : World where
  env := envWithKey
  net := fun _ =>
    GetOutcome.getOk { statusCode := 200, bodyRead := ReadOutcome.readOk "weather: clear" }

/-- A test world in which every `http.Get` fails with a transport error. -/
def downWorld : World where
  env := envWithKey
  net := fun _ => GetOutcome.getErr "connection refused"

/-- A test world in which the GET succeeds but reading the body fails. -/
def readFailWorld : World where
  env := envWithKey
  net := fun _ =>
    GetOutcome.getOk { statusCode := 200, bodyRead := ReadOutcome.readErr "unexpected EOF" }

/-- A test world with no API key set, whose provider rejects the request
with a 401 status and an error body. -/
def missingKeyWorld : World where
  env := fun _ => none
  net := fun _ =>
    GetOutcome.getOk { statusCode := 401, bodyRead := ReadOutcome.readOk "401: invalid api key" }

/-- The URL computed inside `requestOpenWeatherMapAPI` is `buildURL` of the
call-time environment (both sides unfold to the same `sprintf` call). -/
theorem sprintf_getenv_eq_buildURL (w : World) (lat lon : Rat) :
    sprintf apiURL.data [GoArg.f lat, GoArg.f lon, GoArg.s (getenv w "OPENWEATHERMAP_API_KEY")]
      = buildURL w.env lat lon := rfl

/-- The request URL, fully rendered (right-nested form, definitional). -/
theorem buildURL_eq (env : String → Option String) (lat lon : Rat) :
    buildURL env lat lon =
      "https://api.openweathermap.org/data/2.5/weather?lat=" ++ (goFormatF6 lat
        ++ ("&lon=" ++ (goFormatF6 lon ++ ("&appid=" ++ (((env "OPENWEATHERMAP_API_KEY").getD "")
        ++ "&units=metric"))))) := rfl

/-- C1: whenever the outbound GET completes and the body read succeeds, the
handler's result is the response body, byte for byte, for every HTTP status
code (the code never inspects the status). -/
theorem success_returns_body_verbatim (w : World) (lat lon : Rat)
    (status : Nat) (body : String)
    (h : w.net (buildURL w.env lat lon) =
      GetOutcome.getOk { statusCode := status, bodyRead := ReadOutcome.readOk body }) :
    (requestOpenWeatherMapAPI w lat lon).1 = body := by
  simp [requestOpenWeatherMapAPI, sprintf_getenv_eq_buildURL, h]

/-- C1 witness: in `okWorld` (status 200, body `weather: clear`) the result
is the body. -/
theorem success_returns_body_verbatim_witness :
    (requestOpenWeatherMapAPI okWorld 1 2).1 = "weather: clear" :=
  success_returns_body_verbatim okWorld 1 2 200 "weather: clear" (by decide)

/-- C2: the fixed fallback string is returned when `http.Get` fails or when
reading the body fails, and these are the only conditions the error
handling turns into the fallback: on a completed request with a readable
body the result is that body. -/
theorem fallback_exactly_on_transport_or_read_error (w : World) (lat lon : Rat) :
    (((∃ e, w.net (buildURL w.env lat lon) = GetOutcome.getErr e) ∨
        (∃ st e, w.net (buildURL w.env lat lon) =
          GetOutcome.getOk { statusCode := st, bodyRead := ReadOutcome.readErr e })) →
      (requestOpenWeatherMapAPI w lat lon).1 = fallbackMessage) ∧
    (∀ st body, w.net (buildURL w.env lat lon) =
        GetOutcome.getOk { statusCode := st, bodyRead := ReadOutcome.readOk body } →
      (requestOpenWeatherMapAPI w lat lon).1 = body) := by
  constructor
  · rintro (⟨e, he⟩ | ⟨st, e, he⟩) <;>
      simp [requestOpenWeatherMapAPI, sprintf_getenv_eq_buildURL, he]
  · intro st body h
    simp [requestOpenWeatherMapAPI, sprintf_getenv_eq_buildURL, h]

/-- C2 witness: in `downWorld` (transport error) the result is the fallback
string; in `readFailWorld` (body-read error) likewise. -/
theorem fallback_exactly_on_transport_or_read_error_witness :
    (requestOpenWeatherMapAPI downWorld 1 2).1 = fallbackMessage ∧
    (requestOpenWeatherMapAPI readFailWorld 1 2).1 = fallbackMessage :=
  ⟨(fallback_exactly_on_transport_or_read_error downWorld 1 2).1
      (Or.inl ⟨"connection refused", by decide⟩),
    (fallback_exactly_on_transport_or_read_error readFailWorld 1 2).1
      (Or.inr ⟨200, "unexpected EOF", by decide⟩)⟩

/-- C3: the single outbound request's URL is exactly the OpenWeatherMap
endpoint with `lat`, `lon` rendered by `%f`, the call-time API key, and the
fixed `units=metric`; and every GET the handler performs uses exactly this
URL (the model admits no other method, header, or endpoint). -/
theorem request_url_shape (w : World) (p : LLMArguments) :
    buildURL w.env p.latitude p.longitude =
      "https://api.openweathermap.org/data/2.5/weather?lat=" ++ goFormatF6 p.latitude
        ++ "&lon=" ++ goFormatF6 p.longitude
        ++ "&appid=" ++ getenv w "OPENWEATHERMAP_API_KEY" ++ "&units=metric" ∧
    (∀ u, Effect.httpGet u ∈ Handler w p → u = buildURL w.env p.latitude p.longitude) := by
  constructor
  · simp only [String.append_assoc]
    exact buildURL_eq w.env p.latitude p.longitude
  · intro u hu
    rcases hne : w.net (buildURL w.env p.latitude p.longitude) with e | resp
    · simp [Handler, requestOpenWeatherMapAPI, sprintf_getenv_eq_buildURL, hne] at hu
      exact hu
    · rcases hbr : resp.bodyRead with e | body <;>
        · simp [Handler, requestOpenWeatherMapAPI, sprintf_getenv_eq_buildURL, hne, hbr] at hu
          exact hu

/-- C3 witness: in `okWorld` at coordinates (1, 2) the GET that the handler
performs is the fully rendered OpenWeatherMap URL. -/
theorem request_url_shape_witness :
    "https://api.openweathermap.org/data/2.5/weather?lat=1.000000&lon=2.000000&appid=TESTKEY&units=metric"
      = buildURL okWorld.env 1 2 :=
  (request_url_shape okWorld ⟨"London", 1, 2⟩).2 _ (by decide)

/-- C4 counterexample: on a failed outbound call (transport error in
`downWorld`) the handler still emits the structured `slog.Info` line
recording the city and the (fallback) result — the claim that no structured
log line is emitted on the failure path is false. -/
theorem slog_emitted_on_failure_path :
    downWorld.net (buildURL downWorld.env 1 2) = GetOutcome.getErr "connection refused" ∧
    Effect.slogInfo "get-weather" "London" fallbackMessage
      ∈ Handler downWorld ⟨"London", 1, 2⟩ := by
  decide

/-- C4 amended: the structured log line recording the city and the result
is emitted on every invocation, success or failure alike (on failure it
records the fallback string as the result). -/
theorem slog_emitted_on_every_path (w : World) (p : LLMArguments) :
    Effect.slogInfo "get-weather" p.city
      (requestOpenWeatherMapAPI w p.latitude p.longitude).1 ∈ Handler w p := by
  simp [Handler]

/-- C5 counterexample: in `missingKeyWorld` the API-key variable is unset,
the provider answers 401 with an error body, and the handler returns that
provider error text — not the generic fallback string. -/
theorem missing_key_returns_provider_body :
    missingKeyWorld.env "OPENWEATHERMAP_API_KEY" = none ∧
    (requestOpenWeatherMapAPI missingKeyWorld 1 2).1 = "401: invalid api key" ∧
    (requestOpenWeatherMapAPI missingKeyWorld 1 2).1 ≠ fallbackMessage := by
  decide

/-- C5 amended: when the API-key variable is unset, the request is still
sent, with an empty `appid` value; if the provider responds and the body is
read, the handler returns the provider's response body (its rejection
text), and only a transport or body-read failure yields the fallback. -/
theorem missing_key_request_sent_with_empty_appid (w : World) (lat lon : Rat)
    (hk : w.env "OPENWEATHERMAP_API_KEY" = none) :
    buildURL w.env lat lon =
      "https://api.openweathermap.org/data/2.5/weather?lat=" ++ goFormatF6 lat
        ++ "&lon=" ++ goFormatF6 lon ++ "&appid=&units=metric" ∧
    (∀ st body, w.net (buildURL w.env lat lon) =
        GetOutcome.getOk { statusCode := st, bodyRead := ReadOutcome.readOk body } →
      (requestOpenWeatherMapAPI w lat lon).1 = body) := by
  constructor
  · rw [buildURL_eq, hk]
    simp only [String.append_assoc]
    rfl
  · intro st body h
    simp [requestOpenWeatherMapAPI, sprintf_getenv_eq_buildURL, h]

/-- C5 amended witness: in `missingKeyWorld` the URL carries an empty
`appid` and the handler returns the provider's 401 body. -/
theorem missing_key_request_sent_with_empty_appid_witness :
    buildURL missingKeyWorld.env 1 2 =
      "https://api.openweathermap.org/data/2.5/weather?lat=" ++ goFormatF6 1
        ++ "&lon=" ++ goFormatF6 2 ++ "&appid=&units=metric" ∧
    (requestOpenWeatherMapAPI missingKeyWorld 1 2).1 = "401: invalid api key" :=
  ⟨(missing_key_request_sent_with_empty_appid missingKeyWorld 1 2 rfl).1,
    (missing_key_request_sent_with_empty_appid missingKeyWorld 1 2 rfl).2
      401 "401: invalid api key" (by decide)⟩

/-- C6: the handler is total — on every input and every network outcome it
terminates with exactly one `ctx.WriteLLMResult` call handing a string back
to the host, and that string is either the fallback message or a response
body that was actually received; no error escapes to the caller. -/
theorem handler_total_always_writes_result (w : World) (p : LLMArguments) :
    (Handler w p).countP isResultWrite = 1 ∧
    Effect.writeLLMResult (requestOpenWeatherMapAPI w p.latitude p.longitude).1
      ∈ Handler w p ∧
    ((requestOpenWeatherMapAPI w p.latitude p.longitude).1 = fallbackMessage ∨
      ∃ st, w.net (buildURL w.env p.latitude p.longitude) =
        GetOutcome.getOk
          ⟨st, ReadOutcome.readOk (requestOpenWeatherMapAPI w p.latitude p.longitude).1⟩) := by
  refine ⟨?_, ?_, ?_⟩
  · rcases hne : w.net (buildURL w.env p.latitude p.longitude) with e | resp
    · simp [Handler, requestOpenWeatherMapAPI, sprintf_getenv_eq_buildURL, hne, isResultWrite]
    · rcases hbr : resp.bodyRead with e | body <;>
        simp [Handler, requestOpenWeatherMapAPI, sprintf_getenv_eq_buildURL, hne, hbr,
          isResultWrite]
  · simp [Handler]
  · rcases hne : w.net (buildURL w.env p.latitude p.longitude) with e | resp
    · simp [requestOpenWeatherMapAPI, sprintf_getenv_eq_buildURL, hne]
    · rcases hbr : resp.bodyRead with e | body
      · simp [requestOpenWeatherMapAPI, sprintf_getenv_eq_buildURL, hne, hbr]
      · refine Or.inr ⟨resp.statusCode, ?_⟩
        simp [requestOpenWeatherMapAPI, sprintf_getenv_eq_buildURL, hne, hbr]
        cases resp
        simp_all

/-- C7: every invocation performs exactly one outbound HTTP GET — no retry,
no backoff, no second request on failure. -/
theorem exactly_one_outbound_get (w : World) (p : LLMArguments) :
    (Handler w p).countP isHttpGet = 1 := by
  rcases hne : w.net (buildURL w.env p.latitude p.longitude) with e | resp
  · simp [Handler, requestOpenWeatherMapAPI, sprintf_getenv_eq_buildURL, hne, isHttpGet]
  · rcases hbr : resp.bodyRead with e | body <;>
      simp [Handler, requestOpenWeatherMapAPI, sprintf_getenv_eq_buildURL, hne, hbr, isHttpGet]

/-- C8: the outbound URL embeds the value the environment holds for
`OPENWEATHERMAP_API_KEY` at call time (an unset variable reads as the empty
string), and the URL depends on the environment only through that call-time
value — there is no cached or persisted key, so any two calls whose
environments agree on the key request the same URL. -/
theorem api_key_read_at_call_time (w : World) (p : LLMArguments) :
    Effect.httpGet ("https://api.openweathermap.org/data/2.5/weather?lat="
        ++ goFormatF6 p.latitude ++ "&lon=" ++ goFormatF6 p.longitude
        ++ "&appid=" ++ (w.env "OPENWEATHERMAP_API_KEY").getD "" ++ "&units=metric")
      ∈ Handler w p ∧
    (∀ w' : World, w'.env "OPENWEATHERMAP_API_KEY" = w.env "OPENWEATHERMAP_API_KEY" →
      buildURL w'.env p.latitude p.longitude = buildURL w.env p.latitude p.longitude) := by
  constructor
  · have hurl : ("https://api.openweathermap.org/data/2.5/weather?lat="
        ++ goFormatF6 p.latitude ++ "&lon=" ++ goFormatF6 p.longitude
        ++ "&appid=" ++ (w.env "OPENWEATHERMAP_API_KEY").getD "" ++ "&units=metric")
        = buildURL w.env p.latitude p.longitude := by
      rw [buildURL_eq]
      simp only [String.append_assoc]
    rw [hurl]
    rcases hne : w.net (buildURL w.env p.latitude p.longitude) with e | resp
    · simp [Handler, requestOpenWeatherMapAPI, sprintf_getenv_eq_buildURL, hne]
    · rcases hbr : resp.bodyRead with e | body <;>
        simp [Handler, requestOpenWeatherMapAPI, sprintf_getenv_eq_buildURL, hne, hbr]
  · intro w' hk
    rw [buildURL_eq, buildURL_eq, hk]

/-- C8 witness: `okWorld` and `downWorld` hold the same key, so the URLs of
their requests coincide. -/
theorem api_key_read_at_call_time_witness :
    buildURL downWorld.env 1 2 = buildURL okWorld.env 1 2 :=
  (api_key_read_at_call_time okWorld ⟨"London", 1, 2⟩).2 downWorld rfl

/-- C9: the city argument is advisory only — two invocations differing only
in the city perform the same outbound GET and write the same result back to
the host (only the diagnostic log line mentions the city). -/
theorem city_noninterference (w : World) (c₁ c₂ : String) (lat lon : Rat) :
    (∀ u, Effect.httpGet u ∈ Handler w ⟨c₁, lat, lon⟩ ↔
      Effect.httpGet u ∈ Handler w ⟨c₂, lat, lon⟩) ∧
    (∀ r, Effect.writeLLMResult r ∈ Handler w ⟨c₁, lat, lon⟩ ↔
      Effect.writeLLMResult r ∈ Handler w ⟨c₂, lat, lon⟩) := by
  constructor <;> intro x <;>
    · rcases hne : w.net (buildURL w.env lat lon) with e | resp
      · simp [Handler, requestOpenWeatherMapAPI, sprintf_getenv_eq_buildURL, hne]
      · rcases hbr : resp.bodyRead with e | body <;>
          simp [Handler, requestOpenWeatherMapAPI, sprintf_getenv_eq_buildURL, hne, hbr]

/-- The character list underlying `String.mk`. -/
theorem data_mk (l : List Char) : (String.mk l).data = l := rfl

/-- A `%f` fractional part has exactly as many digits as the precision. -/
theorem fixedDigits_length (w n : Nat) : (fixedDigits w n).length = w := by
  induction w generalizing n with
  | zero => rfl
  | succ k ih => simp [fixedDigits, ih]

/-- `Nat.digitChar` of a value below ten is a decimal digit. -/
theorem digitChar_isDigit (n : Nat) (h : n < 10) : (Nat.digitChar n).isDigit = true := by
  interval_cases n <;> decide

/-- Every character of a fixed-width digit group is a decimal digit. -/
theorem fixedDigits_all_digits (w n : Nat) : ∀ c ∈ fixedDigits w n, c.isDigit = true := by
  induction w generalizing n with
  | zero => simp [fixedDigits]
  | succ k ih =>
    intro c hc
    simp only [fixedDigits, List.mem_append, List.mem_singleton] at hc
    rcases hc with hc | hc
    · exact ih _ _ hc
    · subst hc
      exact digitChar_isDigit _ (Nat.mod_lt _ (by norm_num))

/-- Every character produced by `natDigitsAux` is a decimal digit. -/
theorem natDigitsAux_all_digits (fuel n : Nat) :
    ∀ c ∈ natDigitsAux fuel n, c.isDigit = true := by
  induction fuel generalizing n with
  | zero => simp [natDigitsAux]
  | succ k ih =>
    intro c hc
    simp only [natDigitsAux] at hc
    by_cases h : n < 10
    · simp only [if_pos h, List.mem_singleton] at hc
      subst hc
      exact digitChar_isDigit n h
    · simp only [if_neg h, List.mem_append, List.mem_singleton] at hc
      rcases hc with hc | hc
      · exact ih _ _ hc
      · subst hc
        exact digitChar_isDigit _ (Nat.mod_lt _ (by norm_num))

/-- Every character of an integer part rendered by `natDigits` is a
decimal digit. -/
theorem natDigits_all_digits (n : Nat) : ∀ c ∈ natDigits n, c.isDigit = true :=
  natDigitsAux_all_digits _ _

/-- C10: coordinates are rendered with Go's `%f` verb — fixed-point
notation with exactly six digits after the decimal point: 51.5074 renders
as `51.507400`, a coordinate with more than six fractional digits is
rounded (0.123456789 renders as `0.123457`), and in general the rendering
is an integer part followed by `.` and exactly six decimal digits. -/
theorem format_f6_six_fraction_digits :
    goFormatF6 (51.5074 : Rat) = "51.507400" ∧
    goFormatF6 (0.123456789 : Rat) = "0.123457" ∧
    ∀ q : Rat, ∃ intPart fracPart : List Char,
      (goFormatF6 q).data = intPart ++ '.' :: fracPart ∧
      fracPart.length = 6 ∧ (∀ c ∈ fracPart, c.isDigit = true) ∧ '.' ∉ intPart := by
  refine ⟨?_, ?_, ?_⟩
  · have h : (51.5074 : Rat) = Rat.mk' 257537 5000 := by
      rw [Rat.mk'_eq_divInt, Rat.divInt_eq_div]; norm_num
    rw [h]; decide
  · have h : (0.123456789 : Rat) = Rat.mk' 123456789 1000000000 := by
      rw [Rat.mk'_eq_divInt, Rat.divInt_eq_div]; norm_num
    rw [h]; decide
  · intro q
    refine ⟨(if q.num < 0 then "-" else "").data
        ++ natDigits (roundNearestEven (q.num.natAbs * 1000000) q.den / 1000000),
      fixedDigits 6 (roundNearestEven (q.num.natAbs * 1000000) q.den % 1000000),
      ?_, fixedDigits_length _ _, fixedDigits_all_digits _ _, ?_⟩
    · simp [goFormatF6, String.data_append, data_mk, List.append_assoc,
        show ("." : String).data = ['.'] from rfl]
    · intro hmem
      rcases List.mem_append.1 hmem with hs | hd
      · by_cases hneg : q.num < 0 <;> simp [hneg] at hs
      · have := natDigits_all_digits _ _ hd
        exact absurd this (by decide)

end GetWeather
